import Mathlib

/-!
Shallow embedding of the job-batch abstraction of `samueljackson92/tools`
(`src/common.py`, `src/batch_dftb_plus.py`) and of the resume-aware
unit of work `do_step`, together with proofs checking the repository's
natural-language specification against this code.
-/

deriving instance DecidableEq for Except

namespace ToolsBatch

/-! ## Filesystem model and `do_step` (src/batch_dftb_plus.py lines 12-23)

The on-disk state is modelled as the set of (directory, filename) pairs
present, represented as a list.  `run_dftb` spawns the external `dftb+`
binary; its filesystem effect is not code of this repository, so it is a
parameter `re` of the development, constrained by hypotheses taken from
the spec where a claim needs them. -/

/-- A filesystem: the list of (directory, filename) pairs present on disk. -/
abbrev FS := List (String × String)

/-- The sentinel file tested by `do_step`'s resume check
(`os.path.isfile(os.path.join(folder, 'geo_end.xyz'))`). -/
def sentinelFile : String := "geo_end.xyz"

/-- The file read by the result loader `load_dftb_calculator`
(src/common.py line 195: `os.path.join(directory, "results.tag")`). -/
def resultsTagFile : String := "results.tag"

/-- The (directory, filename) input that `load_dftb_calculator` reads its
results from (src/common.py lines 195-204). -/
def load_dftb_calculator_reads (directory : String) : String × String :=
  (directory, resultsTagFile)

/-- Outcome of one `do_step` call: the resulting filesystem and whether the
external computation (`run_dftb`) actually ran. -/
structure StepOut where
  fs : FS
  ran : Bool
  deriving DecidableEq, Repr

/-- `do_step(folder, resume)` from src/batch_dftb_plus.py lines 20-23:

    if resume and os.path.isfile(os.path.join(folder, 'geo_end.xyz')):
        return
    run_dftb(folder)

`re` is the filesystem effect of the external `dftb+` run launched by
`run_dftb` (an external collaborator, not repository code). -/
def do_step (re : String → FS → FS) (resume : Bool) (folder : String) (fs : FS) : StepOut :=
  if resume = true ∧ (folder, sentinelFile) ∈ fs then ⟨fs, false⟩
  else ⟨re folder fs, true⟩

/-- Sequential composite of `do_step` over a folder list, as performed by one
batch run in `process_single_structure` (src/batch_dftb_plus.py lines 60-71);
worker side effects are confined to their own job directory (spec section 5),
so the concurrent run's on-disk effect equals this sequential composite.
Returns the final filesystem and the number of `do_step` calls that actually
ran the external computation. -/
def runAll (re : String → FS → FS) (resume : Bool) : List String → FS → FS × Nat
  | [], fs => (fs, 0)
  | d :: ds, fs =>
    let s := do_step re resume d fs
    let rest := runAll re resume ds s.fs
    (rest.1, (if s.ran then 1 else 0) + rest.2)

/-- On a resumed run, a directory whose sentinel file is present stays
present through the rest of the fold (each later step either skips, rewrites
its own directory's sentinel, or touches a different directory). -/
theorem runAll_preserves_sentinel (re : String → FS → FS)
    (hSent : ∀ d fs, (d, sentinelFile) ∈ re d fs)
    (hConf : ∀ d fs p, p.1 ≠ d → (p ∈ re d fs ↔ p ∈ fs))
    (ds : List String) :
    ∀ fs d, (d, sentinelFile) ∈ fs → (d, sentinelFile) ∈ (runAll re true ds fs).1 := by
  induction ds with
  | nil => intro fs d h; simpa [runAll] using h
  | cons d0 ds ih =>
    intro fs d h
    by_cases hskip : (d0, sentinelFile) ∈ fs
    · simpa [runAll, do_step, hskip] using ih fs d h
    · by_cases hd : d = d0
      · subst hd
        simpa [runAll, do_step, hskip] using ih (re d fs) d (hSent d fs)
      · have : (d, sentinelFile) ∈ re d0 fs := by
          rw [hConf d0 fs (d, sentinelFile) hd]; exact h
        simpa [runAll, do_step, hskip] using ih (re d0 fs) d this

/-- After one resumed run over `ds`, every processed directory contains the
sentinel file: either it was already there (the step skipped) or the external
computation deposited it. -/
theorem runAll_sentinel_mem (re : String → FS → FS)
    (hSent : ∀ d fs, (d, sentinelFile) ∈ re d fs)
    (hConf : ∀ d fs p, p.1 ≠ d → (p ∈ re d fs ↔ p ∈ fs))
    (ds : List String) :
    ∀ fs d, d ∈ ds → (d, sentinelFile) ∈ (runAll re true ds fs).1 := by
  induction ds with
  | nil => intro fs d h; cases h
  | cons d0 ds ih =>
    intro fs d h
    rcases List.mem_cons.mp h with hd | hd
    · subst hd
      by_cases hskip : (d, sentinelFile) ∈ fs
      · simpa [runAll, do_step, hskip] using
          runAll_preserves_sentinel re hSent hConf ds fs d hskip
      · simpa [runAll, do_step, hskip] using
          runAll_preserves_sentinel re hSent hConf ds (re d fs) d (hSent d fs)
    · by_cases hskip : (d0, sentinelFile) ∈ fs
      · simpa [runAll, do_step, hskip] using ih fs d hd
      · simpa [runAll, do_step, hskip] using ih (re d0 fs) d hd

/-- A resumed run over directories that all already hold the sentinel file is
a pure no-op: the filesystem is returned unchanged and zero external
computations are performed. -/
theorem runAll_all_sentinel (re : String → FS → FS) (ds : List String) :
    ∀ fs, (∀ d ∈ ds, (d, sentinelFile) ∈ fs) → runAll re true ds fs = (fs, 0) := by
  induction ds with
  | nil => intro fs _; rfl
  | cons d0 ds ih =>
    intro fs h
    have h0 : (d0, sentinelFile) ∈ fs := h d0 (List.mem_cons_self d0 ds)
    have hrest : runAll re true ds fs = (fs, 0) :=
      ih fs (fun d hd => h d (List.mem_cons_of_mem d0 hd))
    simp [runAll, do_step, h0, hrest]

/-! ## The batch map (src/common.py lines 26-55)

`JobBatch.__init__` stores `functools.partial(func, **params)`; `__enter__`
calls `imap_unordered(self._func, self._items)`; `__next__` returns the next
completed outcome.  A worker outcome is either the returned value or the
exception the unit of work raised (`Except.error`, carrying the exception
payload only — `multiprocessing` re-raises the bare exception object). -/

/-- `functools.partial(func, **params)` (src/common.py line 35): binds the
fixed keyword parameters, so every later invocation is `func item params`. -/
def boundFunc {α π β : Type} (func : α → π → β) (params : π) : α → β :=
  fun a => func a params

/-- The multiset of invocation outcomes of one batch, bookkeeping each item
with its own outcome: `imap_unordered` applies the bound function exactly
once per item (src/common.py line 42). -/
def runBatch {α β : Type} (f : α → Except String β) (items : List α) :
    List (α × Except String β) :=
  items.map fun a => (a, f a)

/-- The invocation results of one batch in submission order: each item's
result is `func item params`, with the same `params` bound at construction
for every item. -/
def batchInvocations {α π β : Type} (func : α → π → β) (params : π) (items : List α) :
    List β :=
  items.map (boundFunc func params)

/-- What the caller of `__next__` sees: only the outcome (the value, or the
re-raised exception), for the completed items in arrival order `order`
(src/common.py line 54: `result = self._jobs.next(...); return result`). -/
def consumerStream {α β : Type} (f : α → Except String β) (order : List α) :
    List (Except String β) :=
  order.map f

/-- One `IMapUnorderedIterator.next` step on the remaining outcomes: `none`
models the `StopIteration` that ends the `for` loop once every submitted item
has yielded its result. -/
def imapNext {γ : Type} : List γ → Option (γ × List γ)
  | [] => none
  | r :: rs => some (r, rs)

/-! ## Pool lifecycle (src/common.py lines 39-43 and 64-66)

The worker pool is `multiprocessing.Pool`, an external library; its state is
modelled from its contract: a status flag (RUN / CLOSE / TERMINATE), the
worker processes, and the submitted items split into pending / in-flight /
done.  `Pool.close` only flips the status to CLOSE (stop accepting work; let
in-flight tasks finish); `Pool.terminate` is the call that would stop
in-flight work, and the repository never makes it. -/

/-- The status flag of a `multiprocessing.Pool` (RUN / CLOSE / TERMINATE). -/
inductive PoolStatus where
  | run
  | close
  | terminate
  deriving DecidableEq, Repr

/-- State of the worker pool during one batch: alive worker processes,
and the submitted jobs split by progress. -/
structure PoolState (α : Type) where
  status : PoolStatus
  nworkers : Nat
  pending : List α
  inflight : List α
  done : List α
  deriving DecidableEq, Repr

/-- `Pool.close()`: prevents more tasks from being submitted; in-flight tasks
keep running and workers exit only once all tasks are done.  It neither
terminates in-flight work nor waits for it. -/
def poolClose {α : Type} (s : PoolState α) : PoolState α :=
  { s with status := PoolStatus.close }

/-- `Pool.terminate()`: stops the worker processes immediately, abandoning
in-flight work.  Modelled for comparison; the repository never calls it. -/
def poolTerminate {α : Type} (s : PoolState α) : PoolState α :=
  { s with status := PoolStatus.terminate, nworkers := 0, inflight := [] }

/-- `JobBatch.__exit__` (src/common.py lines 64-66 and
src/batch_dftb_plus.py lines 56-57): its entire body is
`self._pool.close()`. -/
def JobBatch.exitBatch {α : Type} (s : PoolState α) : PoolState α :=
  poolClose s

/-- The pool state produced by `__enter__`: `nworkers` worker processes in
RUN state, all items submitted (pending), nothing yet in flight or done. -/
def JobBatch.enterPool {α : Type} (nworkers : Nat) (items : List α) : PoolState α :=
  ⟨PoolStatus.run, nworkers, items, [], []⟩

/-- The `JobBatch` object itself: the stored items and `ncores` argument
(src/common.py lines 26-37), and the pool, absent until `__enter__`. -/
structure JobBatchState (α : Type) where
  items : List α
  ncores : Option Nat
  pool : Option (PoolState α)
  deriving DecidableEq, Repr

/-- `JobBatch.__init__` (src/common.py lines 26-37): stores the arguments;
creates no pool and dispatches nothing. -/
def JobBatch.init {α : Type} (items : List α) (ncores : Option Nat) : JobBatchState α :=
  ⟨items, ncores, none⟩

/-- `JobBatch.__enter__` (src/common.py lines 39-43): allocates
`Pool(processes=self._ncores)` — sized `ncores`, or the host's logical core
count `cpuCount` when `ncores` is `None` — and submits all items via
`imap_unordered`. -/
def JobBatch.enter {α : Type} (cpuCount : Nat) (b : JobBatchState α) : JobBatchState α :=
  { b with pool := some (JobBatch.enterPool (b.ncores.getD cpuCount) b.items) }

/-- Modelled from the spec: the dispatch discipline of the worker pool
(CPython `multiprocessing.Pool`, not repository code).  Spec section 5: the
pool has `nworkers` worker processes "each executing one Job at a time to
completion before accepting the next", so a pending job can start only when
some worker is free, i.e. when fewer than `n` jobs are in flight. -/
inductive PoolStep {α : Type} (n : Nat) : PoolState α → PoolState α → Prop where
  | dispatch (s : PoolState α) (j : α) (rest : List α)
      (hp : s.pending = j :: rest) (hfree : s.inflight.length < n) :
      PoolStep n s ⟨s.status, s.nworkers, rest, j :: s.inflight, s.done⟩
  | finish (s : PoolState α) (j : α) (l r : List α)
      (hin : s.inflight = l ++ j :: r) :
      PoolStep n s ⟨s.status, s.nworkers, s.pending, l ++ r, j :: s.done⟩

/-- Each pool step preserves the bound on concurrently executing jobs. -/
theorem poolStep_inflight_le {α : Type} {n : Nat} {s t : PoolState α}
    (h : PoolStep n s t) (hs : s.inflight.length ≤ n) : t.inflight.length ≤ n := by
  cases h with
  | dispatch j rest hp hfree => simpa using hfree
  | finish j l r hin =>
    have : (l ++ j :: r).length ≤ n := hin ▸ hs
    simp only [List.length_append, List.length_cons] at this ⊢
    omega

/-! ## Construction-time checking (src/common.py lines 26-37)

`__init__` runs `functools.partial(func, **params)` — which raises
`TypeError` when `func` is not callable — and then merely stores `items` and
`ncores`.  No other validation happens at construction, and no
`ConfigurationError` class exists anywhere in the repository. -/

/-- The properties of the constructor arguments that the specification says
are validated: whether `func` is callable, whether `items` is a finite
sequence, and the `ncores` argument. -/
structure InitArgs where
  funcCallable : Bool
  itemsFiniteSeq : Bool
  ncores : Option Int
  deriving DecidableEq, Repr

/-- The Python exceptions relevant to construction-time checking.
`configurationError` stands for the `ConfigurationError` the specification
names; no such class exists in the source. -/
inductive PyErr where
  | typeError
  | valueError
  | configurationError
  deriving DecidableEq, Repr

/-- The exception, if any, raised by `JobBatch.__init__` (src/common.py
lines 26-37): `functools.partial(func, **params)` raises `TypeError` when
`func` is not callable; `items` and `ncores` are stored unexamined. -/
def initError (a : InitArgs) : Option PyErr :=
  if a.funcCallable then none else some PyErr.typeError

/-! ## The `__next__` timeout (src/common.py lines 49-55)

`__next__` runs `self._jobs.next(timeout=sys.maxint)`: an explicit timeout
equal to `sys.maxint`, the largest plain integer of the Python 2 runtime
(`2^(bits-1) - 1` on a build with `bits`-bit ints), rather than omitting the
timeout argument. -/

/-- `sys.maxint` on a Python 2 build whose plain ints have `bits` bits. -/
def sys_maxint (bits : Nat) : Nat := 2 ^ (bits - 1) - 1

/-- The `timeout` keyword argument of a call to `IMapIterator.next`:
`none` models calling `next()` with the timeout omitted. -/
structure NextCall where
  timeout : Option Nat
  deriving DecidableEq, Repr

/-- The call `JobBatch.__next__` makes (src/common.py line 54):
`self._jobs.next(timeout=sys.maxint)`. -/
def jobBatchNextCall (bits : Nat) : NextCall :=
  ⟨some (sys_maxint bits)⟩

/-- A concrete external-run effect used to instantiate the abstract `dftb+`
effect in witnesses: it deposits the sentinel file in its own directory. -/
def sentinelWriter : String → FS → FS :=
  fun d fs => (d, sentinelFile) :: fs

/-! ## Claims -/

/-- C2: iterating a `JobBatch` to exhaustion yields exactly `n` results for
`n` jobs — one per job, counted with multiplicity, in whatever completion
order `delivered` arrived — then the iterator stops (`imapNext` returns
`none` once all `n` are consumed); for `n = 0` iteration ends immediately
with zero results. -/
theorem completeness_c2 {α β : Type} (f : α → Except String β) (items : List α)
    (delivered : List (α × Except String β))
    (h : delivered.Perm (runBatch f items)) :
    delivered.length = items.length ∧
    (delivered.map Prod.fst).Perm items ∧
    (items = [] → delivered = []) ∧
    imapNext (delivered.drop items.length) = none := by
  have hlen : delivered.length = items.length := by
    simpa [runBatch] using h.length_eq
  refine ⟨hlen, ?_, ?_, ?_⟩
  · have heq : List.map Prod.fst (runBatch f items) = items := by
      simp [runBatch, List.map_map, Function.comp_def]
    exact heq ▸ h.map Prod.fst
  · intro hnil
    subst hnil
    exact h.eq_nil
  · rw [← hlen, List.drop_length]
    rfl

/-- Witness for C2 at a concrete input: two jobs delivered in reversed
(completion) order still give two results, one per job. -/
theorem completeness_c2_witness :
    (([("b", Except.ok 2), ("a", Except.ok 1)] : List (String × Except String Nat))).Perm
      (runBatch (fun s => if s = "a" then Except.ok 1 else Except.ok 2) ["a", "b"]) ∧
    (([("b", Except.ok 2), ("a", Except.ok 1)] : List (String × Except String Nat))).length =
      (["a", "b"] : List String).length :=
  ⟨by decide, (completeness_c2 (fun s => if s = "a" then Except.ok 1 else Except.ok 2)
      ["a", "b"] [("b", Except.ok 2), ("a", Except.ok 1)] (by decide)).1⟩

/-- C3 as stated is false at this input: the exception surfaced by
`__next__` is the bare raised exception, carrying no job identifier — two
distinct jobs whose unit of work raised the same exception produce
identical consumer-visible results, so the delivered result is not tagged
with the originating job's identifier. -/
theorem perjob_failure_c3_counterexample :
    consumerStream (fun _ => (Except.error "boom" : Except String Nat)) ["dirA", "dirB"] =
      [Except.error "boom", Except.error "boom"] ∧
    ("dirA" : String) ≠ "dirB" := by
  constructor
  · rfl
  · decide

/-- C3 amended: if the unit of work raises `e` for job `j`, that bare
exception (not tagged with `j`) is the outcome delivered for `j` at the
step where `j`'s result is consumed, and the batch is not aborted — every
job in the batch still yields its own outcome. -/
theorem perjob_failure_c3 {α β : Type} (f : α → Except String β) (items : List α)
    (j : α) (e : String) (hj : j ∈ items) (he : f j = Except.error e) :
    (j, Except.error e) ∈ runBatch f items ∧
    (∀ j', j' ∈ items → (j', f j') ∈ runBatch f items) ∧
    imapNext (consumerStream f [j]) = some (Except.error e, []) := by
  refine ⟨?_, ?_, ?_⟩
  · exact List.mem_map.mpr ⟨j, hj, by rw [he]⟩
  · intro j' hj'
    exact List.mem_map.mpr ⟨j', hj', rfl⟩
  · simp [consumerStream, imapNext, he]

/-- Witness for C3 (amended) at a concrete input: job "a" raises, its entry
is its result, and job "b" still yields its own result. -/
theorem perjob_failure_c3_witness :
    (("a" : String) ∈ (["a", "b"] : List String)) ∧
    (("a" : String), (Except.error "boom" : Except String Nat)) ∈
      runBatch (fun s => if s = "a" then Except.error "boom" else Except.ok 0) ["a", "b"] :=
  ⟨by decide, (perjob_failure_c3
      (fun s => if s = "a" then Except.error "boom" else Except.ok (0 : Nat))
      ["a", "b"] "a" "boom" (by decide) (by decide)).1⟩

/-- C5: `do_step` with resume requested returns the filesystem unchanged
(no side effects, no run) when the sentinel file is present, and otherwise
performs the external computation; consequently — given that the external
run deposits the sentinel in its own directory and touches no other
directory — a second resumed run over the same folders is a no-op: the
on-disk state after run 2 equals the state after run 1 and run 2 performs
zero actual computations. -/
theorem resume_idempotence_c5 (re : String → FS → FS)
    (hSent : ∀ d fs, (d, sentinelFile) ∈ re d fs)
    (hConf : ∀ d fs p, p.1 ≠ d → (p ∈ re d fs ↔ p ∈ fs))
    (folders : List String) (fs0 : FS) :
    (∀ d fs, (d, sentinelFile) ∈ fs → do_step re true d fs = ⟨fs, false⟩) ∧
    (∀ d fs, (d, sentinelFile) ∉ fs → do_step re true d fs = ⟨re d fs, true⟩) ∧
    runAll re true folders (runAll re true folders fs0).1 =
      ((runAll re true folders fs0).1, 0) := by
  refine ⟨?_, ?_, ?_⟩
  · intro d fs h
    simp [do_step, h]
  · intro d fs h
    simp [do_step, h]
  · exact runAll_all_sentinel re folders _
      (fun d hd => runAll_sentinel_mem re hSent hConf folders fs0 d hd)

/-- Witness for C5 at a concrete input: with the sentinel-writing external
effect, one folder, empty initial disk — the second resumed run changes
nothing and runs nothing. -/
theorem resume_idempotence_c5_witness :
    (∀ d fs, (d, sentinelFile) ∈ sentinelWriter d fs) ∧
    runAll sentinelWriter true ["a"] (runAll sentinelWriter true ["a"] []).1 =
      ((runAll sentinelWriter true ["a"] []).1, 0) :=
  ⟨fun d fs => List.mem_cons_self _ _,
   (resume_idempotence_c5 sentinelWriter
      (fun d fs => List.mem_cons_self _ _)
      (by
        intro d fs p hp
        constructor
        · intro h
          rcases List.mem_cons.mp h with h | h
          · exact absurd (by rw [h]) hp
          · exact h
        · exact List.mem_cons_of_mem _)
      ["a"] []).2.2⟩

/-- C8: every invocation of the batch has the form `func job params` with
the same fixed `params` (bound by `functools.partial` at construction) for
all jobs; each job is invoked exactly once (the result list has one entry
per item), and an invocation's result is independent of the surrounding
items. -/
theorem invocation_form_c8 {α π β : Type} (func : α → π → β) (params : π)
    (items1 items2 : List α) (j : α) :
    batchInvocations func params (items1 ++ j :: items2) =
      batchInvocations func params items1 ++
        func j params :: batchInvocations func params items2 ∧
    (batchInvocations func params (items1 ++ j :: items2)).length =
      (items1 ++ j :: items2).length ∧
    boundFunc func params j = func j params := by
  refine ⟨?_, ?_, rfl⟩
  · simp [batchInvocations, boundFunc]
  · simp [batchInvocations]

/-- C10: with resume requested, `do_step` skips (does not run the external
computation) exactly when `geo_end.xyz` is present in the folder; with
`resume=False` it always runs; the skip decision is unchanged if every
`results.tag` entry is erased from the filesystem (the test never inspects
`results.tag`); and the file the result loader reads differs from the skip
sentinel, so a directory holding `geo_end.xyz` but lacking `results.tag`
is treated as already done on resume. -/
theorem resume_skip_sentinel_c10 (re : String → FS → FS) (d : String) (fs : FS) :
    ((do_step re true d fs).ran = false ↔ (d, sentinelFile) ∈ fs) ∧
    (do_step re false d fs).ran = true ∧
    ((do_step re true d (fs.filter fun p => p.2 != resultsTagFile)).ran
        = (do_step re true d fs).ran) ∧
    (load_dftb_calculator_reads d).2 ≠ sentinelFile ∧
    do_step re true d [(d, sentinelFile)] = ⟨[(d, sentinelFile)], false⟩ ∧
    (d, resultsTagFile) ∉ [(d, sentinelFile)] := by
  have hmem : ((d, sentinelFile) ∈ fs.filter fun p => p.2 != resultsTagFile) ↔
      (d, sentinelFile) ∈ fs := by
    simp [List.mem_filter, sentinelFile, resultsTagFile]
  refine ⟨?_, ?_, ?_, ?_, ?_, ?_⟩
  · by_cases h : (d, sentinelFile) ∈ fs <;> simp [do_step, h]
  · simp [do_step]
  · by_cases h : (d, sentinelFile) ∈ fs <;> simp [do_step, h, hmem]
  · simp [load_dftb_calculator_reads, resultsTagFile, sentinelFile]
  · simp [do_step]
  · simp [resultsTagFile, sentinelFile]

/-- Witness for C10 at a concrete input: a directory holding the sentinel
but not `results.tag` is skipped on resume. -/
theorem resume_skip_sentinel_c10_witness :
    do_step sentinelWriter true "dirA" [("dirA", sentinelFile)] =
      ⟨[("dirA", sentinelFile)], false⟩ :=
  (resume_skip_sentinel_c10 sentinelWriter "dirA" [("dirA", sentinelFile)]).2.2.2.2.1

/-- C1 as stated is false at this input: `__exit__` on a pool with one job
still in flight leaves that invocation in flight (not terminated) and does
not put the pool in the TERMINATE state — its entire body is
`self._pool.close()`, which only stops new work from being accepted. -/
theorem teardown_c1_counterexample :
    (JobBatch.exitBatch (⟨PoolStatus.run, 2, [], ["dirA"], []⟩ : PoolState String)).inflight
        ≠ [] ∧
    (JobBatch.exitBatch (⟨PoolStatus.run, 2, [], ["dirA"], []⟩ : PoolState String)).status
        ≠ PoolStatus.terminate := by
  decide

/-- C1 amended: the scoped release closes the pool — new work is no longer
accepted (status CLOSE) — but it does not terminate in-flight invocations
and does not stop or await the worker processes: in-flight jobs, pending
jobs and the workers are left exactly as they were, and the release is
never the TERMINATE teardown. -/
theorem teardown_c1 {α : Type} (s : PoolState α) :
    (JobBatch.exitBatch s).status = PoolStatus.close ∧
    (JobBatch.exitBatch s).inflight = s.inflight ∧
    (JobBatch.exitBatch s).pending = s.pending ∧
    (JobBatch.exitBatch s).nworkers = s.nworkers ∧
    JobBatch.exitBatch s ≠ poolTerminate s := by
  refine ⟨rfl, rfl, rfl, rfl, ?_⟩
  intro h
  have hstat := congrArg PoolState.status h
  simp [JobBatch.exitBatch, poolClose, poolTerminate] at hstat

/-- Witness for C1 (amended) at a concrete input: exiting with a job in
flight leaves it in flight. -/
theorem teardown_c1_witness :
    (JobBatch.exitBatch (⟨PoolStatus.run, 2, [], ["dirB"], []⟩ : PoolState String)).inflight
      = ["dirB"] :=
  (teardown_c1 (⟨PoolStatus.run, 2, [], ["dirB"], []⟩ : PoolState String)).2.1

/-- C4 as stated is false at this input: constructing a `JobBatch` with a
callable function, a non-finite job source and worker count 0 raises
nothing at all — `__init__` merely stores `items` and `ncores`, so neither
condition is detected at construction, let alone as a `ConfigurationError`. -/
theorem construction_c4_counterexample :
    initError ⟨true, false, some 0⟩ = none ∧
    some PyErr.configurationError ≠ (none : Option PyErr) := by
  decide

/-- C4 amended: construction raises only when the work function is not
callable, and then a `TypeError` (from `functools.partial`), never a
`ConfigurationError`; the jobs argument and the worker count are not
examined at construction (the outcome depends only on callability). -/
theorem construction_c4 (a b : InitArgs) (hcall : a.funcCallable = b.funcCallable) :
    (initError a = none ↔ a.funcCallable = true) ∧
    initError a ≠ some PyErr.configurationError ∧
    initError a = initError b := by
  refine ⟨?_, ?_, ?_⟩
  · cases hfc : a.funcCallable <;> simp [initError, hfc]
  · cases hfc : a.funcCallable <;> simp [initError, hfc]
  · simp [initError, hcall]

/-- Witness for C4 (amended) at concrete inputs: two argument tuples that
agree on callability but differ on jobs and worker count get the same
construction outcome. -/
theorem construction_c4_witness :
    (InitArgs.mk false true none).funcCallable
        = (InitArgs.mk false false (some 0)).funcCallable ∧
    initError ⟨false, true, none⟩ = initError ⟨false, false, some 0⟩ :=
  ⟨rfl, (construction_c4 ⟨false, true, none⟩ ⟨false, false, some 0⟩ rfl).2.2⟩

/-- C6: for every worker bound `n ≥ 1`, in every pool state reachable from
the state `__enter__` creates, at most `n` unit-of-work invocations are in
flight concurrently. -/
theorem bounded_concurrency_c6 {α : Type} (n : Nat) (hn : 1 ≤ n) (items : List α)
    (s : PoolState α)
    (h : Relation.ReflTransGen (PoolStep n) (JobBatch.enterPool n items) s) :
    s.inflight.length ≤ n := by
  induction h with
  | refl => simp [JobBatch.enterPool]
  | tail hab hbc ih => exact poolStep_inflight_le hbc ih

/-- Witness for C6 at a concrete input: bound 1, one job dispatched — one
invocation in flight, within the bound. -/
theorem bounded_concurrency_c6_witness :
    (1 : Nat) ≤ 1 ∧
    (PoolState.mk PoolStatus.run 1 [] ["dirA"] [] : PoolState String).inflight.length ≤ 1 :=
  ⟨le_refl 1, bounded_concurrency_c6 1 (le_refl 1) ["dirA"] _
    (Relation.ReflTransGen.tail Relation.ReflTransGen.refl
      (PoolStep.dispatch _ "dirA" [] rfl (by decide)))⟩

/-- C7: `__next__` passes an explicit timeout — it is not omitted — equal to
`sys.maxint`, the largest representable timeout value of the runtime's
plain-integer width, so every representable timeout is at most the one
passed. -/
theorem unbounded_timeout_c7 (bits : Nat) :
    jobBatchNextCall bits ≠ ⟨none⟩ ∧
    (jobBatchNextCall bits).timeout = some (sys_maxint bits) ∧
    ∀ t : Nat, t < 2 ^ (bits - 1) → t ≤ sys_maxint bits := by
  refine ⟨?_, rfl, ?_⟩
  · intro h
    simpa [jobBatchNextCall] using congrArg NextCall.timeout h
  · intro t ht
    have h1 : 1 ≤ 2 ^ (bits - 1) := Nat.one_le_two_pow
    simp only [sys_maxint]
    omega

/-- Witness for C7 at a concrete input: on a 64-bit build the timeout passed
is `sys.maxint` and the representable timeout 1000 is within it. -/
theorem unbounded_timeout_c7_witness :
    (jobBatchNextCall 64).timeout = some (sys_maxint 64) ∧ (1000 : Nat) ≤ sys_maxint 64 :=
  ⟨(unbounded_timeout_c7 64).2.1,
   (unbounded_timeout_c7 64).2.2 1000 (by norm_num [sys_maxint])⟩

/-- C9: construction creates no pool — no worker process exists and no job
is dispatched — while `__enter__` allocates the pool in RUN state with
`ncores` workers (or the host's logical core count when `ncores` is `None`)
and submits every job (all pending, none yet in flight or done). -/
theorem lazy_construction_c9 {α : Type} (items : List α) (ncores : Option Nat)
    (cpuCount : Nat) :
    (JobBatch.init items ncores).pool = none ∧
    (JobBatch.enter cpuCount (JobBatch.init items ncores)).pool =
      some ⟨PoolStatus.run, ncores.getD cpuCount, items, [], []⟩ ∧
    (JobBatch.enter cpuCount (JobBatch.init items (none : Option Nat))).pool =
      some ⟨PoolStatus.run, cpuCount, items, [], []⟩ := by
  exact ⟨rfl, rfl, rfl⟩

/-- Witness for C9 at a concrete input: before entry no pool exists; on
entry with `ncores = None` the pool is sized by the host core count (4
here) with both jobs pending. -/
theorem lazy_construction_c9_witness :
    (JobBatch.init (["a", "b"] : List String) none).pool = none ∧
    (JobBatch.enter 4 (JobBatch.init (["a", "b"] : List String) none)).pool =
      some ⟨PoolStatus.run, 4, ["a", "b"], [], []⟩ :=
  ⟨(lazy_construction_c9 ["a", "b"] none 4).1,
   (lazy_construction_c9 ["a", "b"] none 4).2.2⟩
